import Mathlib

/-!
Verification of the behavioral layer of a static portfolio page
(src/js/scripts.js) against its natural-language specification.

The script is shallowly embedded: each event handler becomes a pure
function on an explicit state record, DOM queries become fields of the
state, JavaScript attribute values stay strings, and a thrown
JavaScript exception becomes an `Except.error`.
-/

namespace Portfolio

/-! ## Theme Controller (scripts.js lines 62-77) -/

/-- State of the theme machinery: the persisted value under the
localStorage key `theme` (`none` when absent) and the value of the
document body's `data-theme` attribute (`none` when absent). -/
structure ThemeState where
  stored : Option String
  attr : Option String
deriving DecidableEq, Repr

/-- JavaScript `v || default` on a nullable string: `null` and the
empty string are falsy. -/
def jsOrDefault (v : Option String) (dflt : String) : String :=
  match v with
  | none => dflt
  | some s => if s = "" then dflt else s

/-- Embeds `initTheme` (lines 62-66): read the saved theme, defaulting
to "dark", and apply it to the body attribute. Storage is not
written. -/
def initTheme (s : ThemeState) : ThemeState :=
  let savedTheme := jsOrDefault s.stored "dark"
  { s with attr := some savedTheme }

/-- The new theme computed by `toggleTheme` (line 70) from the current
value of the body attribute: "light" exactly when the current value is
"dark", otherwise "dark". -/
def toggleThemeValue (currentTheme : Option String) : String :=
  if currentTheme = some "dark" then "light" else "dark"

/-- Embeds `toggleTheme` (lines 68-77): flip the attribute value and
persist the new value to storage. -/
def toggleTheme (s : ThemeState) : ThemeState :=
  let newTheme := toggleThemeValue s.attr
  { stored := some newTheme, attr := some newTheme }

/-! ## Navigation Controller (scripts.js lines 26-59, 202-206, 258-266
and the menu-close branch of `setupSmoothScrolling`, lines 141-144) -/

/-- Menu state: whether the navbar carries the `open` class, the toggle
button's `aria-expanded` attribute, the navbar's `aria-hidden`
attribute, and whether keyboard focus sits on the toggle button. -/
structure MenuState where
  openClass : Bool
  ariaExpanded : Option String
  ariaHidden : Option String
  focusOnToggle : Bool
deriving DecidableEq, Repr

/-- Embeds `updateAriaAttributes` (lines 202-206): derive both ARIA
attributes from the presence of the `open` class. -/
def updateAriaAttributes (s : MenuState) : MenuState :=
  let isExpanded := s.openClass
  { s with
      ariaExpanded := some (toString isExpanded)
      ariaHidden := some (toString (!isExpanded)) }

/-- Embeds the toggle-button click handler (lines 31-34): flip the
class, then resynchronize both ARIA attributes. -/
def toggleClick (s : MenuState) : MenuState :=
  updateAriaAttributes { s with openClass := !s.openClass }

/-- Embeds the document click handler (lines 41-48). `insideNavbar` is
whether the click target lies inside the navbar. Only `aria-expanded`
is rewritten; `aria-hidden` is left as it was. -/
def outsideClick (insideNavbar : Bool) (s : MenuState) : MenuState :=
  if !insideNavbar && s.openClass then
    { s with openClass := false, ariaExpanded := some "false" }
  else s

/-- Embeds the Escape keydown handler (lines 51-59): close, rewrite
`aria-expanded`, and move focus to the toggle. `aria-hidden` is
untouched. -/
def escapeKey (s : MenuState) : MenuState :=
  if s.openClass then
    { s with
        openClass := false
        ariaExpanded := some "false"
        focusOnToggle := true }
  else s

/-- Embeds the debounced resize handler (lines 258-266): above the
768px breakpoint, remove the `open` class; neither ARIA attribute is
rewritten. -/
def resizeClose (width : Nat) (s : MenuState) : MenuState :=
  if width > 768 then
    if s.openClass then { s with openClass := false } else s
  else s

/-- Embeds the menu-close branch of an anchor click (lines 141-144):
remove the `open` class only. -/
def anchorClose (s : MenuState) : MenuState :=
  if s.openClass then { s with openClass := false } else s

/-- The menu events the specification quantifies over. -/
inductive MenuEvent where
  | toggle : MenuEvent
  | outside (insideNavbar : Bool) : MenuEvent
  | escape : MenuEvent
  | resize (width : Nat) : MenuEvent
  | anchor : MenuEvent
deriving DecidableEq, Repr

/-- One step of the menu state machine. -/
def menuStep (s : MenuState) : MenuEvent → MenuState
  | MenuEvent.toggle => toggleClick s
  | MenuEvent.outside inside => outsideClick inside s
  | MenuEvent.escape => escapeKey s
  | MenuEvent.resize w => resizeClose w s
  | MenuEvent.anchor => anchorClose s

/-- Run a sequence of menu events. -/
def menuRun (evs : List MenuEvent) (s : MenuState) : MenuState :=
  evs.foldl menuStep s

/-- Full three-way consistency: the menu is open iff the container has
the class, iff `aria-expanded` is "true", iff `aria-hidden` is
"false". -/
def menuConsistent (s : MenuState) : Prop :=
  (s.ariaExpanded = some "true" ↔ s.openClass = true) ∧
  (s.ariaHidden = some "false" ↔ s.openClass = true)

instance (s : MenuState) : Decidable (menuConsistent s) := by
  unfold menuConsistent; infer_instance

/-- Consistency of the class with `aria-expanded` alone. -/
def expandedConsistent (s : MenuState) : Prop :=
  s.ariaExpanded = some "true" ↔ s.openClass = true

instance (s : MenuState) : Decidable (expandedConsistent s) := by
  unfold expandedConsistent; infer_instance

/-- A closed, fully consistent starting state. -/
def closedMenu : MenuState :=
  { openClass := false
    ariaExpanded := some "false"
    ariaHidden := some "true"
    focusOnToggle := false }

/-- Events whose handlers rewrite `aria-expanded` whenever they change
the `open` class: toggle click, outside click, Escape. The resize and
anchor-click closes touch only the class. -/
def MenuEvent.syncsExpanded : MenuEvent → Bool
  | MenuEvent.toggle => true
  | MenuEvent.outside _ => true
  | MenuEvent.escape => true
  | MenuEvent.resize _ => false
  | MenuEvent.anchor => false

/-! ## Scroll Router (scripts.js lines 118-151) -/

/-- Environment of one anchor click: the href attribute of the clicked
link, whether `document.querySelector(href)` finds a target element,
that element's offsetTop, the viewport width, and whether the navbar is
currently open. -/
structure AnchorEnv where
  href : String
  targetExists : Bool
  targetOffsetTop : Int
  innerWidth : Nat
  menuOpen : Bool
deriving DecidableEq, Repr

/-- The header correction of line 132:
`window.innerWidth <= 768 ? 80 : 0`. -/
def headerOffset (innerWidth : Nat) : Nat :=
  if innerWidth ≤ 768 then 80 else 0

/-- The header correction as the claim words it: 80 only when the
viewport width is strictly below the 768 breakpoint, 0 on wider
viewports. -/
def headerOffsetClaimed (innerWidth : Nat) : Nat :=
  if innerWidth < 768 then 80 else 0

/-- Outcome of one anchor click: whether default navigation was
cancelled, the scroll destination if a scroll was issued, whether focus
moved to the target element, and whether the menu is open afterwards. -/
structure ScrollOutcome where
  prevented : Bool
  scrolledTo : Option Int
  focusedTarget : Bool
  menuOpenAfter : Bool
deriving DecidableEq, Repr

/-- Embeds the anchor click handler (lines 121-149): "#" and
"#page-top" scroll to 0; an existing target scrolls to its offsetTop
minus `headerOffset`, closes the menu and focuses the target; a missing
target leaves default behavior untouched. -/
def anchorClick (env : AnchorEnv) : ScrollOutcome :=
  if env.href = "#" ∨ env.href = "#page-top" then
    { prevented := true
      scrolledTo := some 0
      focusedTarget := false
      menuOpenAfter := env.menuOpen }
  else if env.targetExists then
    { prevented := true
      scrolledTo := some (env.targetOffsetTop - (headerOffset env.innerWidth : Int))
      focusedTarget := true
      menuOpenAfter := false }
  else
    { prevented := false
      scrolledTo := none
      focusedTarget := false
      menuOpenAfter := env.menuOpen }

/-! ## Section Watcher (scripts.js lines 93-116) -/

/-- An anchor element of the document, in document order: its href,
whether it bears the `nav-link` class, and whether it currently carries
the `active` class. -/
structure Anchor where
  href : String
  isNavLink : Bool
  active : Bool
deriving DecidableEq, Repr

/-- One entry delivered to the section observer: whether the observed
section is intersecting, and the section's id. -/
structure SectionEntry where
  isIntersecting : Bool
  targetId : String
deriving DecidableEq, Repr

/-- Line 102: remove the `active` class from every `.nav-link`. Other
anchors are untouched. -/
def clearActive (links : List Anchor) : List Anchor :=
  links.map fun a => if a.isNavLink then { a with active := false } else a

/-- Lines 105-108: `document.querySelector` returns the first anchor in
document order whose href matches, and the `active` class is added to
it when it exists. -/
def markFirst (href : String) : List Anchor → List Anchor
  | [] => []
  | a :: rest =>
    if a.href = href then { a with active := true } :: rest
    else a :: markFirst href rest

/-- Lines 99-110: process one observer entry. A non-intersecting entry
changes nothing; an intersecting one clears all nav links and then
marks the first anchor whose href is "#" followed by the section id. -/
def processEntry (links : List Anchor) (e : SectionEntry) : List Anchor :=
  if e.isIntersecting then
    markFirst (String.append "#" e.targetId) (clearActive links)
  else links

/-- The whole observer callback (lines 98-111): fold `processEntry`
over the delivered entries in order. -/
def sectionCallback (entries : List SectionEntry) (links : List Anchor) :
    List Anchor :=
  entries.foldl processEntry links

/-- Number of `.nav-link` anchors currently carrying `active`. -/
def activeNavCount (links : List Anchor) : Nat :=
  (links.filter fun a => a.isNavLink && a.active).length

/-! ## Skip link (scripts.js lines 269-296) -/

/-- `document.querySelector` restricted to an id selector: the id when
an element bearing it exists in the document (represented by its list
of element ids), else null. -/
def querySelectorId (doc : List String) (elemId : String) : Option String :=
  if elemId ∈ doc then some elemId else none

/-- A JavaScript method call `el.focus()` on a possibly-null element:
it throws a TypeError when `el` is null. -/
def jsFocus : Option String → Except String Unit
  | some _ => Except.ok ()
  | none => Except.error "TypeError: Cannot read properties of null"

/-- Embeds the skip-link click handler (lines 284-288): prevent
default, call `document.querySelector('#about').focus()` with no null
guard, then remove the skip link. Returns whether the link was removed,
or the exception that propagated. -/
def skipLinkClick (doc : List String) : Except String Bool :=
  match jsFocus (querySelectorId doc "about") with
  | Except.ok _ => Except.ok true
  | Except.error e => Except.error e

/-! ## Service worker registration (scripts.js lines 334-344) -/

/-- Boolean test: the second character list occurs at the start of the
first. -/
def beginsWith : List Char → List Char → Bool
  | _, [] => true
  | [], _ :: _ => false
  | c :: l, d :: sub => c == d && beginsWith l sub

/-- Boolean test: the second character list occurs contiguously
somewhere in the first. -/
def containsSeq : List Char → List Char → Bool
  | [], sub => sub.isEmpty
  | c :: rest, sub => beginsWith (c :: rest) sub || containsSeq rest sub

/-- JavaScript `String.prototype.includes`: substring containment. -/
def jsIncludes (s sub : String) : Bool :=
  containsSeq s.toList sub.toList

/-- Environment of the registration guard: whether `serviceWorker` is
a member of `navigator`, the `navigator.userAgent` string, and the
page's hostname (present in the environment but never consulted by the
code). -/
structure NavigatorEnv where
  supportsServiceWorker : Bool
  userAgent : String
  hostname : String
deriving DecidableEq, Repr

/-- The guard of line 334:
`'serviceWorker' in navigator && !navigator.userAgent.includes('localhost')`. -/
def swGuard (env : NavigatorEnv) : Bool :=
  env.supportsServiceWorker && !(jsIncludes env.userAgent "localhost")

/-- The registration condition as the claim words it: service workers
supported and the host environment is not "localhost". -/
def swGuardClaimed (env : NavigatorEnv) : Bool :=
  env.supportsServiceWorker && !(env.hostname == "localhost")

/-- Outcome of the load handler (lines 335-343): the path whose
registration was attempted if any, the console message produced, and
whether anything was surfaced to the user as an exception. -/
structure SWOutcome where
  attemptedPath : Option String
  consoleMessage : Option String
  thrown : Bool
deriving DecidableEq, Repr

/-- Embeds lines 334-344, with `registrationSucceeds` standing for the
outcome of the `navigator.serviceWorker.register('/sw.js')` promise:
success and failure are both logged and neither is rethrown. -/
def swLoad (env : NavigatorEnv) (registrationSucceeds : Bool) : SWOutcome :=
  if swGuard env then
    if registrationSucceeds then
      { attemptedPath := some "/sw.js"
        consoleMessage := some "SW registered: "
        thrown := false }
    else
      { attemptedPath := some "/sw.js"
        consoleMessage := some "SW registration failed: "
        thrown := false }
  else
    { attemptedPath := none, consoleMessage := none, thrown := false }

/-! ## Entrance animator fade observer (scripts.js lines 176-200) -/

/-- One entry delivered to the fade observer: its intersecting flag and
an identifier for the observed element. -/
structure FadeEntry where
  isIntersecting : Bool
  targetId : Nat
deriving DecidableEq, Repr

/-- The reveal scheduled for one element: the setTimeout delay in
milliseconds and the styles applied when it fires. -/
structure Reveal where
  targetId : Nat
  delayMs : Nat
  opacity : String
  transform : String
deriving DecidableEq, Repr

/-- Embeds the fade observer callback (lines 180-188):
`entries.forEach((entry, index) => ...)` schedules, for every
intersecting entry, a reveal to opacity "1" and translateY(0) after
`index * 100` ms, where `index` is the entry's position in the whole
delivered array. -/
def fadeCallback (entries : List FadeEntry) : List Reveal :=
  (entries.enum.filter fun p => p.2.isIntersecting).map
    fun p => { targetId := p.2.targetId, delayMs := p.1 * 100,
               opacity := "1", transform := "translateY(0)" }

/-- The stagger delay as the claim words it: the index is computed
among the currently-intersecting entries of the batch only. -/
def fadeCallbackClaimed (entries : List FadeEntry) : List Reveal :=
  ((entries.filter fun e => e.isIntersecting).enum).map
    fun p => { targetId := p.2.targetId, delayMs := p.1 * 100,
               opacity := "1", transform := "translateY(0)" }

/-! ## Debounce (scripts.js lines 212-222) -/

/-- Trailing-edge debounce semantics of `PortfolioUtils.debounce` over
a time-stamped call sequence. Each call to the wrapper clears the
pending timer and schedules the wrapped function with its own arguments
`wait` ms later, so a pending timer fires only when the next call comes
no sooner than `wait` ms after it was set; the final call's timer
always fires. Returns the invocations of the wrapped function as
(time, arguments) pairs. -/
def debounceFires {α : Type} (wait : Nat) : List (Nat × α) → List (Nat × α)
  | [] => []
  | [(t, a)] => [(t + wait, a)]
  | (t, a) :: (u, b) :: rest =>
    if t + wait ≤ u then (t + wait, a) :: debounceFires wait ((u, b) :: rest)
    else debounceFires wait ((u, b) :: rest)

end Portfolio

/-! ## Helper lemmas -/

namespace Portfolio

theorem menuConsistent_toggleClick (s : MenuState) :
    menuConsistent (toggleClick s) := by
  cases h : s.openClass <;>
    simp [toggleClick, updateAriaAttributes, menuConsistent, h] <;>
    refine ⟨by decide, by decide⟩

theorem expandedConsistent_step (s : MenuState) (e : MenuEvent)
    (he : e.syncsExpanded = true) (hs : expandedConsistent s) :
    expandedConsistent (menuStep s e) := by
  cases e with
  | toggle => exact (menuConsistent_toggleClick s).1
  | outside inside =>
    by_cases h : (!inside && s.openClass) = true
    · simp [menuStep, outsideClick, h, expandedConsistent]
    · simpa [menuStep, outsideClick, h] using hs
  | escape =>
    by_cases h : s.openClass = true
    · simp [menuStep, escapeKey, h, expandedConsistent]
    · simpa [menuStep, escapeKey, h] using hs
  | resize w => exact absurd he (by simp [MenuEvent.syncsExpanded])
  | anchor => exact absurd he (by simp [MenuEvent.syncsExpanded])

theorem activeNavCount_clearActive (links : List Anchor) :
    activeNavCount (clearActive links) = 0 := by
  induction links with
  | nil => rfl
  | cons a rest ih =>
    by_cases h : a.isNavLink = true <;>
      simp [clearActive, activeNavCount, List.filter_cons, h] at ih ⊢ <;>
      simpa [clearActive, activeNavCount] using ih

theorem activeNavCount_markFirst (href : String) (links : List Anchor) :
    activeNavCount (markFirst href links) ≤ activeNavCount links + 1 := by
  induction links with
  | nil => simp [markFirst, activeNavCount]
  | cons a rest ih =>
    by_cases h : a.href = href
    · by_cases hl : a.isNavLink = true <;>
        by_cases ha : a.active = true <;>
        simp [markFirst, activeNavCount, List.filter_cons, h, hl, ha] at ih ⊢
    · by_cases hl : a.isNavLink = true <;>
        by_cases ha : a.active = true <;>
        simp [markFirst, activeNavCount, List.filter_cons, h, hl, ha] at ih ⊢ <;>
        try omega

theorem activeNavCount_processEntry_intersecting (links : List Anchor)
    (e : SectionEntry) (he : e.isIntersecting = true) :
    activeNavCount (processEntry links e) ≤ 1 := by
  have h := activeNavCount_markFirst (String.append "#" e.targetId)
    (clearActive links)
  rw [activeNavCount_clearActive] at h
  simpa [processEntry, he] using h

theorem activeNavCount_processEntry_le (links : List Anchor)
    (e : SectionEntry) (h : activeNavCount links ≤ 1) :
    activeNavCount (processEntry links e) ≤ 1 := by
  by_cases he : e.isIntersecting = true
  · exact activeNavCount_processEntry_intersecting links e he
  · simpa [processEntry, he] using h

theorem activeNavCount_sectionCallback_le (entries : List SectionEntry)
    (links : List Anchor) (h : activeNavCount links ≤ 1) :
    activeNavCount (sectionCallback entries links) ≤ 1 := by
  induction entries generalizing links with
  | nil => exact h
  | cons e rest ih =>
    exact ih (processEntry links e) (activeNavCount_processEntry_le links e h)

theorem clearActive_navLink_inactive (links : List Anchor) :
    ∀ a ∈ clearActive links, a.isNavLink = true → a.active = false := by
  intro a ha hnav
  rcases List.mem_map.mp ha with ⟨b, _, hba⟩
  by_cases hb : b.isNavLink = true
  · rw [← hba]; simp [hb]
  · rw [← hba] at hnav ⊢
    simp [hb] at hnav

theorem markFirst_active_href (href : String) (links : List Anchor)
    (hcl : ∀ b ∈ links, b.isNavLink = true → b.active = false) :
    ∀ a ∈ markFirst href links, a.isNavLink = true → a.active = true →
      a.href = href := by
  induction links with
  | nil => intro a ha; exact absurd ha (by simp [markFirst])
  | cons b rest ih =>
    intro a ha hnav hact
    by_cases hb : b.href = href
    · rw [markFirst, if_pos hb] at ha
      rcases List.mem_cons.mp ha with rfl | hmem
      · exact hb
      · exact absurd hact
          (by simp [hcl a (List.mem_cons_of_mem b hmem) hnav])
    · rw [markFirst, if_neg hb] at ha
      rcases List.mem_cons.mp ha with rfl | hmem
      · exact absurd hact (by simp [hcl a (List.mem_cons_self a rest) hnav])
      · exact ih (fun x hx => hcl x (List.mem_cons_of_mem b hx)) a hmem
          hnav hact

end Portfolio

/-! ## Claim theorems -/

namespace Portfolio

/-- C1 counterexample: starting from a closed, fully consistent menu, a
toggle click (open) followed by an outside click (close) leaves the
`open` class removed and `aria-expanded` at "false" but `aria-hidden`
still at "false", so the three markers are no longer mutually
consistent. -/
theorem menu_aria_counterexample :
    menuConsistent closedMenu ∧
    ¬ menuConsistent
        (menuRun [MenuEvent.toggle, MenuEvent.outside false] closedMenu) := by
  decide

/-- C1 amended: after any sequence of toggle clicks, outside clicks and
Escape presses starting from a state where the `open` class agrees with
`aria-expanded`, that agreement is preserved; and full three-way
consistency (class, `aria-expanded`, `aria-hidden`) is preserved by
sequences consisting of toggle clicks only. Resize and anchor-click
closes remove only the class and are excluded, as is `aria-hidden`
agreement across outside-click and Escape closes. -/
theorem menu_aria_amended (s : MenuState) (evs : List MenuEvent)
    (hevs : ∀ e ∈ evs, e.syncsExpanded = true)
    (hs : expandedConsistent s) :
    expandedConsistent (menuRun evs s) ∧
    ((∀ e ∈ evs, e = MenuEvent.toggle) → menuConsistent s →
      menuConsistent (menuRun evs s)) := by
  induction evs generalizing s with
  | nil => exact ⟨hs, fun _ h => h⟩
  | cons e rest ih =>
    have he : e.syncsExpanded = true := hevs e (List.mem_cons_self e rest)
    have hrest : ∀ x ∈ rest, x.syncsExpanded = true :=
      fun x hx => hevs x (List.mem_cons_of_mem e hx)
    have hstep : expandedConsistent (menuStep s e) :=
      expandedConsistent_step s e he hs
    refine ⟨(ih (menuStep s e) hrest hstep).1, fun hall _ => ?_⟩
    have heq : e = MenuEvent.toggle := hall e (List.mem_cons_self e rest)
    have hall2 : ∀ x ∈ rest, x = MenuEvent.toggle :=
      fun x hx => hall x (List.mem_cons_of_mem e hx)
    have hcons : menuConsistent (menuStep s e) := by
      rw [heq]; exact menuConsistent_toggleClick s
    exact (ih (menuStep s e) hrest hstep).2 hall2 hcons

/-- Witness for `menu_aria_amended`: a toggle, an outside click and an
Escape press starting from the closed consistent state. -/
theorem menu_aria_amended_witness :
    expandedConsistent
      (menuRun [MenuEvent.toggle, MenuEvent.outside true, MenuEvent.escape]
        closedMenu) ∧
    ((∀ e ∈ [MenuEvent.toggle, MenuEvent.outside true, MenuEvent.escape],
        e = MenuEvent.toggle) →
      menuConsistent closedMenu →
      menuConsistent
        (menuRun [MenuEvent.toggle, MenuEvent.outside true, MenuEvent.escape]
          closedMenu)) :=
  menu_aria_amended closedMenu
    [MenuEvent.toggle, MenuEvent.outside true, MenuEvent.escape]
    (by decide) (by decide)

/-- C2: after `initTheme` the body attribute equals the stored value,
or "dark" when storage is absent; and starting from a persisted and
applied "dark" theme, after N calls to `toggleTheme` the attribute and
the persisted value are "dark" when N is even and "light" when N is
odd. -/
theorem theme_lifecycle (st : Option String) (a : Option String) (N : Nat)
    (hst : st = none ∨ st = some "light" ∨ st = some "dark") :
    (initTheme ⟨st, a⟩).attr = some (st.getD "dark") ∧
    ((toggleTheme^[N] ⟨some "dark", some "dark"⟩).attr
        = some (if N % 2 = 0 then "dark" else "light") ∧
      (toggleTheme^[N] ⟨some "dark", some "dark"⟩).stored
        = some (if N % 2 = 0 then "dark" else "light")) := by
  constructor
  · rcases hst with h | h | h <;> subst h <;> rfl
  · induction N with
    | zero => exact ⟨rfl, rfl⟩
    | succ n ih =>
      rcases ih with ⟨iha, ihs⟩
      rw [Function.iterate_succ_apply']
      rcases Nat.even_or_odd n with he | ho
      · have h0 : n % 2 = 0 := Nat.even_iff.mp he
        have h1 : (n + 1) % 2 = 1 := by omega
        rw [h0] at iha ihs
        simp only [if_pos rfl] at iha ihs
        rw [h1]
        constructor <;>
          simp [toggleTheme, toggleThemeValue, iha]
      · have h0 : n % 2 = 1 := Nat.odd_iff.mp ho
        have h1 : (n + 1) % 2 = 0 := by omega
        rw [h0] at iha ihs
        simp only [if_neg (by decide : ¬ (1 = 0))] at iha ihs
        rw [h1]
        constructor <;>
          simp [toggleTheme, toggleThemeValue, iha]

/-- Witness for `theme_lifecycle` at stored = absent and N = 3. -/
theorem theme_lifecycle_witness :
    (initTheme ⟨none, none⟩).attr = some "dark" ∧
    ((toggleTheme^[3] ⟨some "dark", some "dark"⟩).attr = some "light" ∧
      (toggleTheme^[3] ⟨some "dark", some "dark"⟩).stored = some "light") :=
  theme_lifecycle none none 3 (Or.inl rfl)

/-- C3 counterexample: at viewport width exactly 768 the code applies
the 80px header correction (`innerWidth <= 768`), while the claim
("80 only when the viewport width is below 768") predicts none: an
anchor whose target sits at offset 100 scrolls to 20, not to 100. -/
theorem scroll_boundary_counterexample :
    (anchorClick ⟨"#contact", true, 100, 768, false⟩).scrolledTo = some 20 ∧
    (100 : Int) - (headerOffsetClaimed 768 : Int) = 100 ∧
    ¬ ((some (20 : Int) : Option Int) = some 100) := by
  decide

/-- C3 amended: an anchor click on "#" or "#page-top" cancels default
navigation and scrolls to 0; on an href whose target element exists it
cancels default navigation, scrolls to the target's offsetTop minus a
header correction of 80 when the viewport width is at most 768 (0 on
wider viewports), closes the menu, and focuses the target; on a missing
target the default behavior is left untouched. -/
theorem scroll_destination_amended (env : AnchorEnv) :
    ((env.href = "#" ∨ env.href = "#page-top") →
      anchorClick env =
        { prevented := true
          scrolledTo := some 0
          focusedTarget := false
          menuOpenAfter := env.menuOpen }) ∧
    (¬ (env.href = "#" ∨ env.href = "#page-top") → env.targetExists = true →
      anchorClick env =
        { prevented := true
          scrolledTo := some (env.targetOffsetTop -
            (if env.innerWidth ≤ 768 then (80 : Int) else 0))
          focusedTarget := true
          menuOpenAfter := false }) ∧
    (¬ (env.href = "#" ∨ env.href = "#page-top") → env.targetExists = false →
      anchorClick env =
        { prevented := false
          scrolledTo := none
          focusedTarget := false
          menuOpenAfter := env.menuOpen }) := by
  refine ⟨?_, ?_, ?_⟩
  · intro h
    rcases h with h | h <;> simp [anchorClick, h]
  · intro h ht
    push_neg at h
    by_cases hw : env.innerWidth ≤ 768 <;>
      simp [anchorClick, h.1, h.2, ht, headerOffset, hw]
  · intro h ht
    push_neg at h
    simp [anchorClick, h.1, h.2, ht]

/-- Witness for `scroll_destination_amended` on its three branches: a
"#page-top" click, a click on an existing "#about" target on a narrow
viewport, and a click on a missing target. -/
theorem scroll_destination_amended_witness :
    anchorClick ⟨"#page-top", false, 0, 1024, true⟩ =
      { prevented := true
        scrolledTo := some 0
        focusedTarget := false
        menuOpenAfter := true } ∧
    anchorClick ⟨"#about", true, 500, 375, true⟩ =
      { prevented := true
        scrolledTo := some 420
        focusedTarget := true
        menuOpenAfter := false } ∧
    anchorClick ⟨"#missing", false, 0, 1024, false⟩ =
      { prevented := false
        scrolledTo := none
        focusedTarget := false
        menuOpenAfter := false } := by
  refine ⟨(scroll_destination_amended _).1 (Or.inr rfl), ?_,
    (scroll_destination_amended _).2.2 (by decide) rfl⟩
  have h := (scroll_destination_amended ⟨"#about", true, 500, 375, true⟩).2.1
    (by decide) rfl
  rw [h]
  decide

/-- C4: when the pre-state has at most one active nav link, or the
callback processes at least one intersecting entry, then after the
section-observer callback at most one navigation link carries the
active class; each intersecting entry first clears the marker from all
nav links and then marks the first anchor whose href matches "#" plus
the section id; consequently any nav link left active by an
intersecting entry has exactly that href. -/
theorem section_watcher_invariant (entries : List SectionEntry)
    (links : List Anchor)
    (h : activeNavCount links ≤ 1 ∨ ∃ e ∈ entries, e.isIntersecting = true) :
    activeNavCount (sectionCallback entries links) ≤ 1 ∧
    (∀ e, e.isIntersecting = true →
      processEntry links e
        = markFirst (String.append "#" e.targetId) (clearActive links)) ∧
    (∀ e, e.isIntersecting = true → ∀ a ∈ processEntry links e,
      a.isNavLink = true → a.active = true →
      a.href = String.append "#" e.targetId) := by
  refine ⟨?_, fun e he => by simp [processEntry, he], fun e he a ha => ?_⟩
  · rcases h with h | h
    · exact activeNavCount_sectionCallback_le entries links h
    · induction entries generalizing links with
      | nil => exact absurd h (by simp)
      | cons e rest ih =>
        rcases h with ⟨x, hx, hxi⟩
        rcases List.mem_cons.mp hx with heq | hmem
        · subst heq
          exact activeNavCount_sectionCallback_le rest (processEntry links x)
            (activeNavCount_processEntry_intersecting links x hxi)
        · exact ih (processEntry links e) ⟨x, hmem, hxi⟩
  · rw [processEntry, if_pos he] at ha
    exact markFirst_active_href (String.append "#" e.targetId)
      (clearActive links) (clearActive_navLink_inactive links) a ha

/-- Witness for `section_watcher_invariant`: one intersecting entry for
section "about" over two nav links of which the first starts active. -/
theorem section_watcher_invariant_witness :
    activeNavCount
      (sectionCallback [⟨true, "about"⟩]
        [⟨"#home", true, true⟩, ⟨"#about", true, false⟩]) ≤ 1 ∧
    processEntry [⟨"#home", true, true⟩, ⟨"#about", true, false⟩]
        ⟨true, "about"⟩
      = markFirst (String.append "#" "about")
          (clearActive [⟨"#home", true, true⟩, ⟨"#about", true, false⟩]) := by
  have h := section_watcher_invariant [⟨true, "about"⟩]
    [⟨"#home", true, true⟩, ⟨"#about", true, false⟩]
    (Or.inr (by decide))
  exact ⟨h.1, h.2.1 ⟨true, "about"⟩ rfl⟩

/-- C5: the never-fatal design is the documented intent (all other
handlers guard missing elements with optional chaining), but the
skip-link click handler calls focus() on the result of
querySelector("#about") without a guard: on a document with no "about"
element it throws a TypeError instead of completing, while with the
element present it completes and removes the link. -/
theorem skipLink_throws_without_about :
    skipLinkClick [] =
      Except.error "TypeError: Cannot read properties of null" ∧
    skipLinkClick ["about"] = Except.ok true := by
  constructor
  · rfl
  · simp [skipLinkClick, querySelectorId, jsFocus]

/-- C6 counterexample: with service workers supported, the hostname
"localhost" and an ordinary desktop user-agent string, the code still
attempts registration of "/sw.js", because the guard on line 334 tests
`navigator.userAgent` for the substring "localhost" rather than the
host; so registration is not attempted "exactly when the host
environment is not localhost". -/
theorem sw_registration_counterexample :
    (swLoad ⟨true, "Mozilla/5.0 (X11; Linux x86_64)", "localhost"⟩
        true).attemptedPath = some "/sw.js" ∧
    swGuardClaimed ⟨true, "Mozilla/5.0 (X11; Linux x86_64)", "localhost"⟩
        = false := by
  decide

/-- C6 amended: registration of "/sw.js" is attempted exactly when
service workers are supported and the user-agent string does not
contain "localhost" (the code never consults the hostname); nothing is
ever surfaced to the user as an exception; and a failed registration
logs the failure message to the console. -/
theorem sw_registration_amended (env : NavigatorEnv) (ok : Bool) :
    ((swLoad env ok).attemptedPath = some "/sw.js" ↔
      (env.supportsServiceWorker = true ∧
        jsIncludes env.userAgent "localhost" = false)) ∧
    (swLoad env ok).thrown = false ∧
    (swGuard env = true → ok = false →
      (swLoad env ok).consoleMessage = some "SW registration failed: ") := by
  have hiff : swGuard env = true ↔
      (env.supportsServiceWorker = true ∧
        jsIncludes env.userAgent "localhost" = false) := by
    simp [swGuard]
  refine ⟨?_, ?_, ?_⟩
  · rw [← hiff]
    by_cases hg : swGuard env = true <;> cases ok <;> simp [swLoad, hg]
  · by_cases hg : swGuard env = true <;> cases ok <;> simp [swLoad, hg]
  · intro hg hok
    subst hok
    simp [swLoad, hg]

/-- Witness for `sw_registration_amended`: a supporting environment on
a public host whose registration fails. -/
theorem sw_registration_amended_witness :
    ((swLoad ⟨true, "Mozilla/5.0", "example.com"⟩ false).attemptedPath
        = some "/sw.js" ↔
      ((true : Bool) = true ∧ jsIncludes "Mozilla/5.0" "localhost" = false)) ∧
    (swLoad ⟨true, "Mozilla/5.0", "example.com"⟩ false).thrown = false ∧
    (swGuard ⟨true, "Mozilla/5.0", "example.com"⟩ = true →
      (false : Bool) = false →
      (swLoad ⟨true, "Mozilla/5.0", "example.com"⟩ false).consoleMessage
        = some "SW registration failed: ") :=
  sw_registration_amended ⟨true, "Mozilla/5.0", "example.com"⟩ false

/-- C7 counterexample: a batch whose first entry is not intersecting
and whose second is: the code delays the revealed element by 100 ms
(its index in the whole batch is 1), while the claim (index among the
currently-intersecting elements, here 0) predicts 0 ms. -/
theorem fade_stagger_counterexample :
    fadeCallback [⟨false, 0⟩, ⟨true, 1⟩] =
      [{ targetId := 1
         delayMs := 100
         opacity := "1"
         transform := "translateY(0)" }] ∧
    fadeCallbackClaimed [⟨false, 0⟩, ⟨true, 1⟩] =
      [{ targetId := 1
         delayMs := 0
         opacity := "1"
         transform := "translateY(0)" }] ∧
    (100 : Nat) ≠ 0 := by
  decide

/-- C7 amended: every intersecting entry at position i of the delivered
batch is revealed to opacity "1" and translateY(0) after i * 100 ms,
where i counts all entries of the batch, intersecting or not. -/
theorem fade_stagger_amended (entries : List FadeEntry) (i : Nat)
    (h : i < entries.length)
    (hi : (entries.get ⟨i, h⟩).isIntersecting = true) :
    ({ targetId := (entries.get ⟨i, h⟩).targetId
       delayMs := i * 100
       opacity := "1"
       transform := "translateY(0)" } : Reveal) ∈ fadeCallback entries := by
  have henum : (i, entries.get ⟨i, h⟩) ∈ entries.enum := by
    rw [List.mk_mem_enum_iff_getElem?]
    simp [List.getElem?_eq_getElem h]
  have hfil : (i, entries.get ⟨i, h⟩) ∈
      entries.enum.filter fun p => p.2.isIntersecting :=
    List.mem_filter.mpr ⟨henum, by simpa using hi⟩
  exact List.mem_map.mpr ⟨(i, entries.get ⟨i, h⟩), hfil, rfl⟩

/-- Witness for `fade_stagger_amended` at the second entry of a
two-entry batch whose first entry is not intersecting. -/
theorem fade_stagger_amended_witness :
    ({ targetId := 1
       delayMs := 100
       opacity := "1"
       transform := "translateY(0)" } : Reveal)
      ∈ fadeCallback [⟨false, 0⟩, ⟨true, 1⟩] :=
  fade_stagger_amended [⟨false, 0⟩, ⟨true, 1⟩] 1 (by decide) rfl

/-- C8: five calls to the debounced wrapper whose pairwise gaps are all
shorter than the quiet period produce exactly one invocation of the
wrapped function, `wait` ms after the last call and with the arguments
of the last call. -/
theorem debounce_trailing_once {α : Type} (wait : Nat)
    (t1 t2 t3 t4 t5 : Nat) (a1 a2 a3 a4 a5 : α)
    (h12 : t2 < t1 + wait) (h23 : t3 < t2 + wait)
    (h34 : t4 < t3 + wait) (h45 : t5 < t4 + wait) :
    debounceFires wait [(t1, a1), (t2, a2), (t3, a3), (t4, a4), (t5, a5)]
      = [(t5 + wait, a5)] := by
  have n12 : ¬ (t1 + wait ≤ t2) := by omega
  have n23 : ¬ (t2 + wait ≤ t3) := by omega
  have n34 : ¬ (t3 + wait ≤ t4) := by omega
  have n45 : ¬ (t4 + wait ≤ t5) := by omega
  simp [debounceFires, n12, n23, n34, n45]

/-- Witness for `debounce_trailing_once`: a 250 ms quiet period and
five calls 100 ms apart. -/
theorem debounce_trailing_once_witness :
    debounceFires 250 [(0, 1), (100, 2), (200, 3), (300, 4), (400, 5)]
      = [(650, 5)] :=
  debounce_trailing_once 250 0 100 200 300 400 1 2 3 4 5
    (by omega) (by omega) (by omega) (by omega)

/-- C9: each menu-close operation (outside click, Escape, resize past
the breakpoint, anchor-click close) is a no-op on an already-closed
menu, and applying any of them twice in a row equals applying it
once. -/
theorem menu_close_idempotent (s : MenuState) (b : Bool) (w : Nat) :
    (outsideClick b (outsideClick b s) = outsideClick b s ∧
      escapeKey (escapeKey s) = escapeKey s ∧
      resizeClose w (resizeClose w s) = resizeClose w s ∧
      anchorClose (anchorClose s) = anchorClose s) ∧
    (s.openClass = false →
      outsideClick b s = s ∧ escapeKey s = s ∧ resizeClose w s = s ∧
        anchorClose s = s) := by
  constructor
  · refine ⟨?_, ?_, ?_, ?_⟩
    · by_cases h : (!b && s.openClass) = true <;>
        simp [outsideClick, h]
    · by_cases h : s.openClass = true <;>
        simp [escapeKey, h]
    · by_cases hw : w > 768
      · by_cases h : s.openClass = true <;>
          simp [resizeClose, hw, h]
      · simp [resizeClose, hw]
    · by_cases h : s.openClass = true <;>
        simp [anchorClose, h]
  · intro hclosed
    refine ⟨?_, ?_, ?_, ?_⟩
    · simp [outsideClick, hclosed]
    · simp [escapeKey, hclosed]
    · simp [resizeClose, hclosed]
    · simp [anchorClose, hclosed]

/-- Witness for `menu_close_idempotent` at a concrete closed state, an
outside-target click and a desktop width. -/
theorem menu_close_idempotent_witness :
    (outsideClick false (outsideClick false closedMenu)
        = outsideClick false closedMenu ∧
      escapeKey (escapeKey closedMenu) = escapeKey closedMenu ∧
      resizeClose 1024 (resizeClose 1024 closedMenu)
        = resizeClose 1024 closedMenu ∧
      anchorClose (anchorClose closedMenu) = anchorClose closedMenu) ∧
    (closedMenu.openClass = false →
      outsideClick false closedMenu = closedMenu ∧
        escapeKey closedMenu = closedMenu ∧
        resizeClose 1024 closedMenu = closedMenu ∧
        anchorClose closedMenu = closedMenu) :=
  menu_close_idempotent closedMenu false 1024

/-- C10: `toggleTheme` writes "light" exactly when the current
attribute is "dark" and "dark" for every other current value (absent or
arbitrary string included); the written value is always a member of
{"light", "dark"}, on the attribute and in storage alike. -/
theorem toggleTheme_normalizes (s : ThemeState) :
    ((toggleTheme s).attr = some "light" ∨ (toggleTheme s).attr = some "dark") ∧
    ((toggleTheme s).stored = (toggleTheme s).attr) ∧
    ((toggleTheme s).attr = some "light" ↔ s.attr = some "dark") := by
  refine ⟨?_, rfl, ?_⟩
  · by_cases h : s.attr = some "dark" <;>
      simp [toggleTheme, toggleThemeValue, h]
  · by_cases h : s.attr = some "dark" <;>
      simp [toggleTheme, toggleThemeValue, h]

end Portfolio
